import Mathlib

/-!
Shallow embedding of the `@periodic/obsidian` HTTP error library:
the `HttpError` class (`src/core/http-error.ts`), the factory generator
(`src/core/factories.ts`) and the Express adapter middleware
(`src/adapters/express.ts`), together with theorems about their behaviour.

JavaScript values that appear in response bodies are modelled by the
`Json` inductive; `undefined`-or-present optional values are modelled by
`Option`; the middleware is modelled as a function from the raised error
and request to the list of observable events it performs (logger calls,
response writes, calls to the next handler), in order.
-/

namespace Obsidian

mutual
/-- A JSON-compatible value: numbers, strings, booleans and objects
(finite sequences of string keys and values). Enough to express every
body the adapter writes and arbitrary `details` payloads. -/
inductive Json where
  | num (n : Int)
  | str (s : String)
  | bool (b : Bool)
  | obj (fields : JsonFields)
deriving DecidableEq, Repr

/-- The key-value fields of a JSON object, as a sequence. -/
inductive JsonFields where
  | nil
  | cons (key : String) (value : Json) (rest : JsonFields)
deriving DecidableEq, Repr
end

/-- Options accepted by the `HttpError` constructor
(`HttpErrorOptions` in `src/core/types.ts`): an optional machine-readable
code and an optional opaque details payload. A `none` field models a
field that is absent or `undefined`. -/
structure HttpErrorOptions where
  code : Option String
  details : Option Json
deriving DecidableEq, Repr

/-- The `HttpError` class of `src/core/http-error.ts`: status code,
message, optional code, optional details. The `name` and `stack`
members inherited from `Error` play no role in any serialized output of
the class and are not part of the value. -/
structure HttpError where
  status : Int
  message : String
  code : Option String
  details : Option Json
deriving DecidableEq, Repr

/-- The `HttpError` constructor: stores `status` and `message` verbatim
and reads `options?.code` and `options?.details` (optional chaining is
`Option.bind`). No validation and no message defaulting happens here. -/
def HttpError.make (status : Int) (message : String)
    (options : Option HttpErrorOptions) : HttpError :=
  { status := status
    message := message
    code := options.bind HttpErrorOptions.code
    details := options.bind HttpErrorOptions.details }

/-- `HttpError.toJSON`: builds `{ status, message }` and then adds a
`code` key when `this.code !== undefined` and a `details` key when
`this.details !== undefined`, in that order, mirroring the source. -/
def HttpError.toJSON (e : HttpError) : List (String × Json) :=
  let json := [("status", Json.num e.status), ("message", Json.str e.message)]
  let json := match e.code with
    | some c => json ++ [("code", Json.str c)]
    | none => json
  let json := match e.details with
    | some d => json ++ [("details", d)]
    | none => json
  json

/-- Lookup of a key in a JSON object body (the value of `body[k]`). -/
def getKey (k : String) : List (String × Json) → Option Json
  | [] => none
  | (k', v) :: rest => if k' = k then some v else getKey k rest

/-- The list of keys of a JSON object body. -/
def keysOf (body : List (String × Json)) : List String :=
  body.map Prod.fst

/-- Modelled from the spec: the Status Registry of `src/core/status-codes.ts`
(`HttpStatusMessage`), whose source file is not under `src/`; the 62
entries are taken from the section 6 table of the specification, which the
repository's status-code reference document reproduces. -/
def statusMessageTable : List (Int × String) :=
  [(100, "Continue"), (101, "Switching Protocols"), (102, "Processing"),
   (103, "Early Hints"),
   (200, "OK"), (201, "Created"), (202, "Accepted"),
   (203, "Non-Authoritative Information"), (204, "No Content"),
   (205, "Reset Content"), (206, "Partial Content"), (207, "Multi-Status"),
   (208, "Already Reported"), (226, "IM Used"),
   (300, "Multiple Choices"), (301, "Moved Permanently"), (302, "Found"),
   (303, "See Other"), (304, "Not Modified"), (305, "Use Proxy"),
   (307, "Temporary Redirect"), (308, "Permanent Redirect"),
   (400, "Bad Request"), (401, "Unauthorized"), (402, "Payment Required"),
   (403, "Forbidden"), (404, "Not Found"), (405, "Method Not Allowed"),
   (406, "Not Acceptable"), (407, "Proxy Authentication Required"),
   (408, "Request Timeout"), (409, "Conflict"), (410, "Gone"),
   (411, "Length Required"), (412, "Precondition Failed"),
   (413, "Payload Too Large"), (414, "URI Too Long"),
   (415, "Unsupported Media Type"), (416, "Range Not Satisfiable"),
   (417, "Expectation Failed"), (418, "I'm a teapot"),
   (421, "Misdirected Request"), (422, "Unprocessable Entity"),
   (423, "Locked"), (424, "Failed Dependency"), (425, "Too Early"),
   (426, "Upgrade Required"), (428, "Precondition Required"),
   (429, "Too Many Requests"), (431, "Request Header Fields Too Large"),
   (451, "Unavailable For Legal Reasons"),
   (500, "Internal Server Error"), (501, "Not Implemented"),
   (502, "Bad Gateway"), (503, "Service Unavailable"),
   (504, "Gateway Timeout"), (505, "HTTP Version Not Supported"),
   (506, "Variant Also Negotiates"), (507, "Insufficient Storage"),
   (508, "Loop Detected"), (510, "Not Extended"),
   (511, "Network Authentication Required")]

/-- Modelled from the spec: indexing `HttpStatusMessage[status]`, `none`
for a status absent from the table. -/
def HttpStatusMessage (status : Int) : Option String :=
  (statusMessageTable.find? (fun p => p.1 = status)).map Prod.snd

/-- `HttpError.getDefaultMessage`: `HttpStatusMessage[status] || 'Unknown Error'`
(JavaScript `||` also replaces an empty string, hence the emptiness check). -/
def HttpError.getDefaultMessage (status : Int) : String :=
  match HttpStatusMessage status with
  | some m => if m = "" then "Unknown Error" else m
  | none => "Unknown Error"

/-- `createFactory` of `src/core/factories.ts`: the returned closure
computes `message || HttpError.getDefaultMessage(status)` (so an omitted
or empty message falls back to the registry) and calls the constructor. -/
def createFactory (status : Int) :
    Option String → Option HttpErrorOptions → HttpError :=
  fun message options =>
    let errorMessage := match message with
      | some m => if m = "" then HttpError.getDefaultMessage status else m
      | none => HttpError.getDefaultMessage status
    HttpError.make status errorMessage options

/-!
The factory set of `src/core/factories.ts`: one constant per supported
status, each `createFactory` applied to the status. The numeric statuses
stand for the `HttpStatusCode` enum members of `src/core/status-codes.ts`
(whose source file is not under `src/`); their values are modelled from
the section 6 table of the specification.
-/

def continueError := createFactory 100
def switchingProtocols := createFactory 101
def processing := createFactory 102
def earlyHints := createFactory 103
def ok := createFactory 200
def created := createFactory 201
def accepted := createFactory 202
def nonAuthoritativeInformation := createFactory 203
def noContent := createFactory 204
def resetContent := createFactory 205
def partialContent := createFactory 206
def multiStatus := createFactory 207
def alreadyReported := createFactory 208
def imUsed := createFactory 226
def multipleChoices := createFactory 300
def movedPermanently := createFactory 301
def found := createFactory 302
def seeOther := createFactory 303
def notModified := createFactory 304
def useProxy := createFactory 305
def temporaryRedirect := createFactory 307
def permanentRedirect := createFactory 308
def badRequest := createFactory 400
def unauthorized := createFactory 401
def paymentRequired := createFactory 402
def forbidden := createFactory 403
def notFound := createFactory 404
def methodNotAllowed := createFactory 405
def notAcceptable := createFactory 406
def proxyAuthenticationRequired := createFactory 407
def requestTimeout := createFactory 408
def conflict := createFactory 409
def gone := createFactory 410
def lengthRequired := createFactory 411
def preconditionFailed := createFactory 412
def payloadTooLarge := createFactory 413
def uriTooLong := createFactory 414
def unsupportedMediaType := createFactory 415
def rangeNotSatisfiable := createFactory 416
def expectationFailed := createFactory 417
def imATeapot := createFactory 418
def misdirectedRequest := createFactory 421
def unprocessableEntity := createFactory 422
def locked := createFactory 423
def failedDependency := createFactory 424
def tooEarly := createFactory 425
def upgradeRequired := createFactory 426
def preconditionRequired := createFactory 428
def tooManyRequests := createFactory 429
def requestHeaderFieldsTooLarge := createFactory 431
def unavailableForLegalReasons := createFactory 451
def internalServerError := createFactory 500
def notImplemented := createFactory 501
def badGateway := createFactory 502
def serviceUnavailable := createFactory 503
def gatewayTimeout := createFactory 504
def httpVersionNotSupported := createFactory 505
def variantAlsoNegotiates := createFactory 506
def insufficientStorage := createFactory 507
def loopDetected := createFactory 508
def notExtended := createFactory 510
def networkAuthenticationRequired := createFactory 511

/-- The factory called with no arguments yields an error with the given
status and reason phrase (the shape of each row of the section 6 table). -/
abbrev factoryDefault
    (f : Option String → Option HttpErrorOptions → HttpError)
    (s : Int) (reason : String) : Prop :=
  (f none none).status = s ∧ (f none none).message = reason

/-- The request context handed to the middleware; opaque to the adapter,
which only ever passes it on to the logger. -/
abbrev Request := String

/-- A raised error as seen by the Express error middleware: either an
`HttpError` instance (`err instanceof HttpError` true) or any other
raised value, of which the adapter only ever reads `err.message` and
`err.stack` (the latter possibly `undefined`). -/
inductive RaisedErr where
  | http (e : HttpError)
  | generic (message : String) (stack : Option String)
deriving DecidableEq, Repr

/-- An observable action of the middleware, in order of occurrence:
a call of the configured logger with the raw error and request, a
response write (`res.status(s).json(body)`), or a call of the next
handler with the error. -/
inductive Event where
  | logCall (err : RaisedErr) (req : Request)
  | respond (status : Int) (body : List (String × Json))
  | nextCall (err : RaisedErr)
deriving DecidableEq, Repr

/-- `ExpressErrorHandlerOptions` of `src/adapters/express.ts`.
`includeStack = none` models an absent option (defaulted from the
environment); `logger` records whether a logger callback was supplied
(its behaviour is external, only its invocations are observable);
`transform` is the optional body-reshaping callback. -/
structure ExpressErrorHandlerOptions where
  includeStack : Option Bool
  logger : Bool
  transform : Option (HttpError → List (String × Json))

/-- The destructuring default
`includeStack = process.env.NODE_ENV !== 'production'`, with the
environment value passed explicitly. -/
def resolveIncludeStack (nodeEnv : String)
    (options : ExpressErrorHandlerOptions) : Bool :=
  match options.includeStack with
  | some b => b
  | none => nodeEnv != "production"

/-- The middleware returned by `errorHandler(options)`, as the list of
events one invocation performs: log if a logger is configured; for an
`HttpError` write `transform(err)` or `err.toJSON()` with status
`err.status`; otherwise write a 500 body whose shape depends on the
resolved `includeStack` (the `stack` key is dropped when `err.stack` is
`undefined`, as `JSON.stringify` drops `undefined` members). -/
def errorHandlerRun (nodeEnv : String) (options : ExpressErrorHandlerOptions)
    (err : RaisedErr) (req : Request) : List Event :=
  let includeStack := resolveIncludeStack nodeEnv options
  let logEvents := if options.logger then [Event.logCall err req] else []
  match err with
  | RaisedErr.http e =>
    let response := match options.transform with
      | some t => t e
      | none => e.toJSON
    logEvents ++ [Event.respond e.status response]
  | RaisedErr.generic message stack =>
    if !includeStack then
      logEvents ++ [Event.respond 500
        [("status", Json.num 500), ("message", Json.str "Internal Server Error")]]
    else
      logEvents ++ [Event.respond 500
        ([("status", Json.num 500), ("message", Json.str message)] ++
          (match stack with
           | some s => [("stack", Json.str s)]
           | none => []))]

/-- The middleware returned by `simpleErrorHandler()`: write
`err.toJSON()` with status `err.status` for an `HttpError`, otherwise
call `next(err)`. It takes no options. -/
def simpleErrorHandlerRun (err : RaisedErr) (_req : Request) : List Event :=
  match err with
  | RaisedErr.http e => [Event.respond e.status e.toJSON]
  | other => [Event.nextCall other]

/-- The response writes of a trace, in order. -/
def responsesOf (trace : List Event) : List (Int × List (String × Json)) :=
  trace.filterMap (fun ev => match ev with
    | Event.respond s b => some (s, b)
    | _ => none)

/-- The logger invocations of a trace, in order. -/
def logCallsOf (trace : List Event) : List (RaisedErr × Request) :=
  trace.filterMap (fun ev => match ev with
    | Event.logCall e r => some (e, r)
    | _ => none)

/-- The next-handler invocations of a trace, in order. -/
def nextCallsOf (trace : List Event) : List RaisedErr :=
  trace.filterMap (fun ev => match ev with
    | Event.nextCall e => some e
    | _ => none)

/-- The response-write events of a trace, in order. -/
def respondEventsOf (trace : List Event) : List Event :=
  trace.filter (fun ev => match ev with
    | Event.respond _ _ => true
    | _ => false)

lemma getKey_toJSON_status (e : HttpError) :
    getKey "status" e.toJSON = some (Json.num e.status) := by
  obtain ⟨s, m, c, d⟩ := e
  cases c <;> cases d <;> simp [HttpError.toJSON, getKey]

lemma getKey_toJSON_message (e : HttpError) :
    getKey "message" e.toJSON = some (Json.str e.message) := by
  obtain ⟨s, m, c, d⟩ := e
  cases c <;> cases d <;> simp [HttpError.toJSON, getKey]

lemma responsesOf_run_http (nodeEnv : String)
    (options : ExpressErrorHandlerOptions) (e : HttpError) (req : Request) :
    responsesOf (errorHandlerRun nodeEnv options (RaisedErr.http e) req) =
      [(e.status, match options.transform with
        | some t => t e
        | none => e.toJSON)] := by
  cases hL : options.logger <;> cases hT : options.transform <;>
    simp [errorHandlerRun, responsesOf, hL, hT]

lemma responsesOf_run_generic (nodeEnv : String)
    (options : ExpressErrorHandlerOptions) (message : String)
    (stack : Option String) (req : Request) :
    responsesOf (errorHandlerRun nodeEnv options
        (RaisedErr.generic message stack) req) =
      [(500,
        if resolveIncludeStack nodeEnv options then
          [("status", Json.num 500), ("message", Json.str message)] ++
            (match stack with
             | some s => [("stack", Json.str s)]
             | none => [])
        else
          [("status", Json.num 500),
           ("message", Json.str "Internal Server Error")])] := by
  cases hL : options.logger <;> cases hI : resolveIncludeStack nodeEnv options <;>
    simp [errorHandlerRun, responsesOf, hL, hI]

/-- Claim C1: for every configuration (any `includeStack`, `logger`,
`transform`) and every raised `HttpError` with any integer status, the
handler writes exactly one response, whose status is `e.status` and whose
body is `transform e` when a transform is configured and `e.toJSON`
otherwise; in particular the unrecognized-error 500 branch contributes
nothing to the trace. -/
theorem errorHandler_recognized (nodeEnv : String)
    (options : ExpressErrorHandlerOptions) (e : HttpError) (req : Request) :
    responsesOf (errorHandlerRun nodeEnv options (RaisedErr.http e) req) =
      [(e.status, match options.transform with
        | some t => t e
        | none => e.toJSON)] :=
  responsesOf_run_http nodeEnv options e req

/-- Claim C2: for every raised value that is not an `HttpError`, the
handler writes exactly one response with status 500; its body is
`{status: 500, message: "Internal Server Error"}` when the resolved
`includeStack` is false, and `{status: 500, message: <original message>,
stack: <original stack, when present>}` when it is true. -/
theorem errorHandler_unrecognized (nodeEnv : String)
    (options : ExpressErrorHandlerOptions) (message : String)
    (stack : Option String) (req : Request) :
    responsesOf (errorHandlerRun nodeEnv options
        (RaisedErr.generic message stack) req) =
      [(500,
        if resolveIncludeStack nodeEnv options then
          [("status", Json.num 500), ("message", Json.str message)] ++
            (match stack with
             | some s => [("stack", Json.str s)]
             | none => [])
        else
          [("status", Json.num 500),
           ("message", Json.str "Internal Server Error")])] :=
  responsesOf_run_generic nodeEnv options message stack req

/-- Claim C6: for a raised `HttpError`, two configurations that differ
only in `includeStack` produce the same full event trace: the flag has no
effect on the recognized-error branch. -/
theorem errorHandler_includeStack_irrelevant (nodeEnv : String) (lg : Bool)
    (tr : Option (HttpError → List (String × Json)))
    (inc1 inc2 : Option Bool) (e : HttpError) (req : Request) :
    errorHandlerRun nodeEnv ⟨inc1, lg, tr⟩ (RaisedErr.http e) req =
      errorHandlerRun nodeEnv ⟨inc2, lg, tr⟩ (RaisedErr.http e) req := rfl

/-- Claim C7: `simpleErrorHandler` writes exactly one response with
status `e.status` and body `e.toJSON` for an `HttpError`, and for any
other raised value writes no response and forwards the error to the next
handler exactly once; it takes no configuration. -/
theorem simpleErrorHandler_contract (req : Request) :
    (∀ e : HttpError, simpleErrorHandlerRun (RaisedErr.http e) req =
      [Event.respond e.status e.toJSON]) ∧
    (∀ (message : String) (stack : Option String),
      responsesOf (simpleErrorHandlerRun
        (RaisedErr.generic message stack) req) = [] ∧
      nextCallsOf (simpleErrorHandlerRun
        (RaisedErr.generic message stack) req) =
          [RaisedErr.generic message stack]) :=
  ⟨fun _ => rfl, fun _ _ => ⟨rfl, rfl⟩⟩

/-- Claim C8: for every raised error, the logger is invoked exactly once
with the raw error and the request when configured and never otherwise,
and every trace is the (possibly empty) logger call followed by the
response writes, so the logger call precedes the response. -/
theorem errorHandler_logger_once_first (nodeEnv : String)
    (options : ExpressErrorHandlerOptions) (err : RaisedErr) (req : Request) :
    logCallsOf (errorHandlerRun nodeEnv options err req) =
      (if options.logger then [(err, req)] else []) ∧
    errorHandlerRun nodeEnv options err req =
      (if options.logger then [Event.logCall err req] else []) ++
        respondEventsOf (errorHandlerRun nodeEnv options err req) := by
  cases err with
  | http e =>
    cases hL : options.logger <;> cases hT : options.transform <;>
      simp [errorHandlerRun, logCallsOf, respondEventsOf, hL, hT]
  | generic m st =>
    cases hL : options.logger <;>
      cases hI : resolveIncludeStack nodeEnv options <;>
      simp [errorHandlerRun, logCallsOf, respondEventsOf, hL, hI]

/-- Claim C3: `toJSON` of an error constructed from any status, message
and options yields a record with exactly a `status` key (the status), a
`message` key (the message), a `code` key iff a code was supplied (with
its value, even an empty string) and a `details` key iff details were
supplied (with their value, even an empty structure), and no other keys:
in particular never `stack` or `name`. -/
theorem toJSON_exact_fields (status : Int) (message : String)
    (o : Option HttpErrorOptions) :
    getKey "status" (HttpError.make status message o).toJSON =
      some (Json.num status) ∧
    getKey "message" (HttpError.make status message o).toJSON =
      some (Json.str message) ∧
    getKey "code" (HttpError.make status message o).toJSON =
      Option.map Json.str (o.bind HttpErrorOptions.code) ∧
    getKey "details" (HttpError.make status message o).toJSON =
      o.bind HttpErrorOptions.details ∧
    keysOf (HttpError.make status message o).toJSON =
      ["status", "message"] ++
        (if (o.bind HttpErrorOptions.code).isSome then ["code"] else []) ++
        (if (o.bind HttpErrorOptions.details).isSome then ["details"]
         else []) ∧
    "stack" ∉ keysOf (HttpError.make status message o).toJSON ∧
    "name" ∉ keysOf (HttpError.make status message o).toJSON := by
  rcases o with _ | ⟨c, d⟩
  · simp [HttpError.make, HttpError.toJSON, getKey, keysOf]
  · cases c <;> cases d <;>
      simp [HttpError.make, HttpError.toJSON, getKey, keysOf]

/-- Claim C9: a factory given a custom message keeps it verbatim unless
it is empty, and an omitted or empty message resolves to the registry
default for the factory's status. -/
theorem factory_message_exact (status : Int) (m : String)
    (o : Option HttpErrorOptions) :
    (createFactory status (some m) o).message =
      (if m = "" then HttpError.getDefaultMessage status else m) ∧
    (createFactory status none o).message =
      HttpError.getDefaultMessage status := ⟨rfl, rfl⟩

/-- Claim C10: the `HttpError` constructor validates nothing and defaults
nothing: any integer status (even 999) and any message (even empty) are
stored verbatim, options fields are copied as given; the registry
substitution for an empty message happens only in the factories, so
constructing 404 with an empty message keeps it empty while
`notFound("")` yields "Not Found". -/
theorem constructor_no_defaulting_no_validation :
    (∀ (s : Int) (m : String) (o : Option HttpErrorOptions),
      (HttpError.make s m o).status = s ∧
      (HttpError.make s m o).message = m ∧
      (HttpError.make s m o).code = o.bind HttpErrorOptions.code ∧
      (HttpError.make s m o).details = o.bind HttpErrorOptions.details) ∧
    (HttpError.make 404 "" none).message = "" ∧
    (HttpError.make 999 "boom" none).status = 999 ∧
    (notFound (some "") none).message = "Not Found" := by
  refine ⟨fun s m o => ⟨rfl, rfl, rfl, rfl⟩, rfl, rfl, ?_⟩
  decide

/-- Claim C4: each of the 62 factories of the section 6 table, called
with no arguments, yields an error whose status is the row's status
code and whose message is the row's reason phrase. -/
theorem factories_default_messages :
    factoryDefault continueError 100 "Continue" ∧
    factoryDefault switchingProtocols 101 "Switching Protocols" ∧
    factoryDefault processing 102 "Processing" ∧
    factoryDefault earlyHints 103 "Early Hints" ∧
    factoryDefault ok 200 "OK" ∧
    factoryDefault created 201 "Created" ∧
    factoryDefault accepted 202 "Accepted" ∧
    factoryDefault nonAuthoritativeInformation 203 "Non-Authoritative Information" ∧
    factoryDefault noContent 204 "No Content" ∧
    factoryDefault resetContent 205 "Reset Content" ∧
    factoryDefault partialContent 206 "Partial Content" ∧
    factoryDefault multiStatus 207 "Multi-Status" ∧
    factoryDefault alreadyReported 208 "Already Reported" ∧
    factoryDefault imUsed 226 "IM Used" ∧
    factoryDefault multipleChoices 300 "Multiple Choices" ∧
    factoryDefault movedPermanently 301 "Moved Permanently" ∧
    factoryDefault found 302 "Found" ∧
    factoryDefault seeOther 303 "See Other" ∧
    factoryDefault notModified 304 "Not Modified" ∧
    factoryDefault useProxy 305 "Use Proxy" ∧
    factoryDefault temporaryRedirect 307 "Temporary Redirect" ∧
    factoryDefault permanentRedirect 308 "Permanent Redirect" ∧
    factoryDefault badRequest 400 "Bad Request" ∧
    factoryDefault unauthorized 401 "Unauthorized" ∧
    factoryDefault paymentRequired 402 "Payment Required" ∧
    factoryDefault forbidden 403 "Forbidden" ∧
    factoryDefault notFound 404 "Not Found" ∧
    factoryDefault methodNotAllowed 405 "Method Not Allowed" ∧
    factoryDefault notAcceptable 406 "Not Acceptable" ∧
    factoryDefault proxyAuthenticationRequired 407 "Proxy Authentication Required" ∧
    factoryDefault requestTimeout 408 "Request Timeout" ∧
    factoryDefault conflict 409 "Conflict" ∧
    factoryDefault gone 410 "Gone" ∧
    factoryDefault lengthRequired 411 "Length Required" ∧
    factoryDefault preconditionFailed 412 "Precondition Failed" ∧
    factoryDefault payloadTooLarge 413 "Payload Too Large" ∧
    factoryDefault uriTooLong 414 "URI Too Long" ∧
    factoryDefault unsupportedMediaType 415 "Unsupported Media Type" ∧
    factoryDefault rangeNotSatisfiable 416 "Range Not Satisfiable" ∧
    factoryDefault expectationFailed 417 "Expectation Failed" ∧
    factoryDefault imATeapot 418 "I'm a teapot" ∧
    factoryDefault misdirectedRequest 421 "Misdirected Request" ∧
    factoryDefault unprocessableEntity 422 "Unprocessable Entity" ∧
    factoryDefault locked 423 "Locked" ∧
    factoryDefault failedDependency 424 "Failed Dependency" ∧
    factoryDefault tooEarly 425 "Too Early" ∧
    factoryDefault upgradeRequired 426 "Upgrade Required" ∧
    factoryDefault preconditionRequired 428 "Precondition Required" ∧
    factoryDefault tooManyRequests 429 "Too Many Requests" ∧
    factoryDefault requestHeaderFieldsTooLarge 431 "Request Header Fields Too Large" ∧
    factoryDefault unavailableForLegalReasons 451 "Unavailable For Legal Reasons" ∧
    factoryDefault internalServerError 500 "Internal Server Error" ∧
    factoryDefault notImplemented 501 "Not Implemented" ∧
    factoryDefault badGateway 502 "Bad Gateway" ∧
    factoryDefault serviceUnavailable 503 "Service Unavailable" ∧
    factoryDefault gatewayTimeout 504 "Gateway Timeout" ∧
    factoryDefault httpVersionNotSupported 505 "HTTP Version Not Supported" ∧
    factoryDefault variantAlsoNegotiates 506 "Variant Also Negotiates" ∧
    factoryDefault insufficientStorage 507 "Insufficient Storage" ∧
    factoryDefault loopDetected 508 "Loop Detected" ∧
    factoryDefault notExtended 510 "Not Extended" ∧
    factoryDefault networkAuthenticationRequired 511 "Network Authentication Required" := by
  refine ⟨?_, ?_, ?_, ?_, ?_, ?_, ?_, ?_, ?_, ?_, ?_, ?_, ?_, ?_, ?_, ?_, ?_, ?_, ?_, ?_, ?_, ?_, ?_, ?_, ?_, ?_, ?_, ?_, ?_, ?_, ?_, ?_, ?_, ?_, ?_, ?_, ?_, ?_, ?_, ?_, ?_, ?_, ?_, ?_, ?_, ?_, ?_, ?_, ?_, ?_, ?_, ?_, ?_, ?_, ?_, ?_, ?_, ?_, ?_, ?_, ?_, ?_⟩ <;> exact ⟨by decide, by decide⟩

/-- Claim C5 counterexample: with a configured transform that returns an
empty record, the body written for a raised `HttpError` is `{}`, which
has neither a `status` nor a `message` key, so the claim is false as
stated over every configuration. -/
theorem response_body_keys_counterexample :
    responsesOf (errorHandlerRun "production"
        ⟨none, false, some (fun _ => [])⟩
        (RaisedErr.http (HttpError.make 404 "User not found" none)) "GET /u")
      = [(404, [])] ∧
    getKey "status" ([] : List (String × Json)) = none ∧
    getKey "message" ([] : List (String × Json)) = none :=
  ⟨rfl, rfl, rfl⟩

/-- Claim C5, amended: for every raised error and every configuration in
which no transform is configured, every JSON body written contains a
`status` key and a `message` key whose value is a string. -/
theorem response_body_has_status_message (nodeEnv : String)
    (options : ExpressErrorHandlerOptions) (err : RaisedErr) (req : Request)
    (h : options.transform = none) :
    ∀ p ∈ responsesOf (errorHandlerRun nodeEnv options err req),
      (∃ v, getKey "status" p.2 = some v) ∧
      (∃ m, getKey "message" p.2 = some (Json.str m)) := by
  intro p hp
  cases err with
  | http e =>
    rw [responsesOf_run_http, h] at hp
    simp only [List.mem_singleton] at hp
    subst hp
    exact ⟨⟨_, getKey_toJSON_status e⟩, ⟨_, getKey_toJSON_message e⟩⟩
  | generic m st =>
    rw [responsesOf_run_generic] at hp
    simp only [List.mem_singleton] at hp
    subst hp
    cases hI : resolveIncludeStack nodeEnv options
    · exact ⟨⟨Json.num 500, by simp [hI, getKey]⟩,
        ⟨"Internal Server Error", by simp [hI, getKey]⟩⟩
    · exact ⟨⟨Json.num 500, by simp [hI, getKey]⟩,
        ⟨m, by simp [hI, getKey]⟩⟩

/-- Witness for the amended claim C5 at a concrete unrecognized error in
a production-defaulted configuration with no transform. -/
theorem response_body_has_status_message_witness :
    (∃ v, getKey "status"
        [("status", Json.num 500),
         ("message", Json.str "Internal Server Error")] = some v) ∧
    (∃ m, getKey "message"
        [("status", Json.num 500),
         ("message", Json.str "Internal Server Error")] =
       some (Json.str m)) :=
  response_body_has_status_message "production" ⟨none, false, none⟩
    (RaisedErr.generic "boom" none) "GET /" rfl
    (500, [("status", Json.num 500),
           ("message", Json.str "Internal Server Error")]) (by decide)

/-- Witness for claim C1 at a concrete 404 error with a code, a logger
and no transform. -/
theorem errorHandler_recognized_witness :
    responsesOf (errorHandlerRun "dev" ⟨some true, true, none⟩
        (RaisedErr.http (HttpError.make 404 "User not found"
          (some ⟨some "USER_NOT_FOUND", none⟩))) "GET /users/1") =
      [(404, (HttpError.make 404 "User not found"
        (some ⟨some "USER_NOT_FOUND", none⟩)).toJSON)] :=
  errorHandler_recognized "dev" ⟨some true, true, none⟩
    (HttpError.make 404 "User not found"
      (some ⟨some "USER_NOT_FOUND", none⟩)) "GET /users/1"

/-- Witness for claim C2 at a concrete generic error in a
production-defaulted configuration. -/
theorem errorHandler_unrecognized_witness :
    responsesOf (errorHandlerRun "production" ⟨none, false, none⟩
        (RaisedErr.generic "boom" (some "at main")) "GET /") =
      [(500, [("status", Json.num 500),
              ("message", Json.str "Internal Server Error")])] :=
  errorHandler_unrecognized "production" ⟨none, false, none⟩ "boom"
    (some "at main") "GET /"

/-- Witness for claim C3 at a concrete error carrying a code and empty
object details. -/
theorem toJSON_exact_fields_witness :
    getKey "status" (HttpError.make 422 "Validation failed"
        (some ⟨some "VALIDATION_ERROR", some (Json.obj JsonFields.nil)⟩)).toJSON =
      some (Json.num 422) ∧
    getKey "message" (HttpError.make 422 "Validation failed"
        (some ⟨some "VALIDATION_ERROR", some (Json.obj JsonFields.nil)⟩)).toJSON =
      some (Json.str "Validation failed") ∧
    getKey "code" (HttpError.make 422 "Validation failed"
        (some ⟨some "VALIDATION_ERROR", some (Json.obj JsonFields.nil)⟩)).toJSON =
      some (Json.str "VALIDATION_ERROR") ∧
    getKey "details" (HttpError.make 422 "Validation failed"
        (some ⟨some "VALIDATION_ERROR", some (Json.obj JsonFields.nil)⟩)).toJSON =
      some (Json.obj JsonFields.nil) ∧
    keysOf (HttpError.make 422 "Validation failed"
        (some ⟨some "VALIDATION_ERROR", some (Json.obj JsonFields.nil)⟩)).toJSON =
      ["status", "message", "code", "details"] ∧
    "stack" ∉ keysOf (HttpError.make 422 "Validation failed"
        (some ⟨some "VALIDATION_ERROR", some (Json.obj JsonFields.nil)⟩)).toJSON ∧
    "name" ∉ keysOf (HttpError.make 422 "Validation failed"
        (some ⟨some "VALIDATION_ERROR", some (Json.obj JsonFields.nil)⟩)).toJSON :=
  toJSON_exact_fields 422 "Validation failed"
    (some ⟨some "VALIDATION_ERROR", some (Json.obj JsonFields.nil)⟩)

/-- Witness for claim C6: flipping `includeStack` between two concrete
configurations leaves the trace for a concrete 404 unchanged. -/
theorem errorHandler_includeStack_irrelevant_witness :
    errorHandlerRun "dev" ⟨some true, true, none⟩
        (RaisedErr.http (HttpError.make 404 "Not Found" none)) "GET /" =
      errorHandlerRun "dev" ⟨some false, true, none⟩
        (RaisedErr.http (HttpError.make 404 "Not Found" none)) "GET /" :=
  errorHandler_includeStack_irrelevant "dev" true none (some true)
    (some false) (HttpError.make 404 "Not Found" none) "GET /"

/-- Witness for claim C7 at a concrete recognized and a concrete
unrecognized error. -/
theorem simpleErrorHandler_contract_witness :
    simpleErrorHandlerRun
        (RaisedErr.http (HttpError.make 403 "Forbidden" none)) "GET /" =
      [Event.respond 403 (HttpError.make 403 "Forbidden" none).toJSON] ∧
    responsesOf (simpleErrorHandlerRun
      (RaisedErr.generic "boom" none) "GET /") = [] ∧
    nextCallsOf (simpleErrorHandlerRun
      (RaisedErr.generic "boom" none) "GET /") =
        [RaisedErr.generic "boom" none] :=
  ⟨(simpleErrorHandler_contract "GET /").1
      (HttpError.make 403 "Forbidden" none),
   ((simpleErrorHandler_contract "GET /").2 "boom" none).1,
   ((simpleErrorHandler_contract "GET /").2 "boom" none).2⟩

/-- Witness for claim C8 at a concrete generic error with a configured
logger. -/
theorem errorHandler_logger_once_first_witness :
    logCallsOf (errorHandlerRun "dev" ⟨some true, true, none⟩
        (RaisedErr.generic "boom" (some "at main")) "GET /") =
      [(RaisedErr.generic "boom" (some "at main"), "GET /")] ∧
    errorHandlerRun "dev" ⟨some true, true, none⟩
        (RaisedErr.generic "boom" (some "at main")) "GET /" =
      [Event.logCall (RaisedErr.generic "boom" (some "at main")) "GET /"] ++
        respondEventsOf (errorHandlerRun "dev" ⟨some true, true, none⟩
          (RaisedErr.generic "boom" (some "at main")) "GET /") :=
  errorHandler_logger_once_first "dev" ⟨some true, true, none⟩
    (RaisedErr.generic "boom" (some "at main")) "GET /"

/-- Witness for claim C9 at a concrete custom message and at the omitted
message. -/
theorem factory_message_exact_witness :
    (createFactory 404 (some "User not found") none).message =
      "User not found" ∧
    (createFactory 404 none none).message =
      HttpError.getDefaultMessage 404 :=
  factory_message_exact 404 "User not found" none

/-- Witness for claim C10 at the out-of-table status 999. -/
theorem constructor_no_defaulting_no_validation_witness :
    (HttpError.make 999 "weird" none).status = 999 ∧
    (HttpError.make 999 "weird" none).message = "weird" :=
  ⟨(constructor_no_defaulting_no_validation.1 999 "weird" none).1,
   (constructor_no_defaulting_no_validation.1 999 "weird" none).2.1⟩

end Obsidian
